import Mathlib

/-!
Verification of the cfssl-issuer reconciliation core.

The Go sources are embedded shallowly:
* `internal/issuer/util/util.go` — the condition store (`GetReadyCondition`,
  `SetReadyCondition`, `IsReady`);
* `vendor/github.com/cloudflare/cfssl/api/client/client.go` — the response
  processing of the authenticated (`authReq`) and unauthenticated (`request`)
  signing paths, and the `NewServerTLS`/`NewAuthServer` constructors;
* the `signer` package (`newCfssl`, `cfssl.Sign`, `cfssl.Check`);
* the two reconcilers (`IssuerReconciler`, `CertificateRequestReconciler`),
  whose controller sources are not in the tree and are therefore modelled
  from the design document, constrained by the unit tests that are in the
  tree.

Machine integers do not occur in the embedded fragments; timestamps are
modelled as `Nat`, byte strings as `String`.
-/

/-- Condition attached to an Issuer/ClusterIssuer status
(`api/v1alpha1/issuer_types.go`, `IssuerCondition`).  `status` holds one of
the strings "True", "False", "Unknown"; the Go zero value of the string type
is `""`.  `lastTransitionTime` is an optional timestamp (`*metav1.Time`). -/
structure IssuerCondition where
  condType : String
  status : String
  lastTransitionTime : Option Nat
  reason : String
  message : String
deriving DecidableEq

/-- `internal/issuer/util/util.go`, `GetReadyCondition`: linear scan returning
(a copy of) the first condition whose type is `Ready`. -/
def GetReadyCondition (conds : List IssuerCondition) : Option IssuerCondition :=
  conds.find? (fun c => c.condType == "Ready")

/-- The write-back loop at the end of `SetReadyCondition`
(`internal/issuer/util/util.go` lines 56-61): store `r` over the first
condition whose type is `Ready`, leaving everything else unchanged. -/
def replaceFirstReady (r : IssuerCondition) : List IssuerCondition → List IssuerCondition
  | [] => []
  | c :: rest => if c.condType == "Ready" then r :: rest else c :: replaceFirstReady r rest

/-- `internal/issuer/util/util.go`, `SetReadyCondition`: if no `Ready`
condition exists, append a zero-valued one (`IssuerCondition{Type: Ready}`,
whose status is the empty string); if the stored status differs from `value`,
update `lastTransitionTime` to the current time; always overwrite
`reason`/`message`; finally write the result back over the first `Ready`
entry of the list. -/
def SetReadyCondition (conds : List IssuerCondition) (now : Nat)
    (value reason message : String) : List IssuerCondition :=
  let p : IssuerCondition × List IssuerCondition :=
    match GetReadyCondition conds with
    | some c => (c, conds)
    | none =>
      let c : IssuerCondition :=
        { condType := "Ready", status := "", lastTransitionTime := none
          reason := "", message := "" }
      (c, conds ++ [c])
  let ready := p.1
  let ready :=
    if ready.status ≠ value then
      { ready with status := value, lastTransitionTime := some now }
    else ready
  let ready := { ready with reason := reason, message := message }
  replaceFirstReady ready p.2

/-- `internal/issuer/util/util.go`, `IsReady`: the `Ready` condition exists
and its status is "True". -/
def IsReady (conds : List IssuerCondition) : Bool :=
  match GetReadyCondition conds with
  | some c => c.status == "True"
  | none => false

/-- A condition found by `GetReadyCondition` has type `Ready`. -/
theorem getReady_some_type {conds : List IssuerCondition} {c : IssuerCondition}
    (h : GetReadyCondition conds = some c) : c.condType = "Ready" := by
  have h2 := List.find?_some h
  simpa using h2

/-- If no `Ready` condition is present, every entry has a different type. -/
theorem getReady_none_forall {conds : List IssuerCondition}
    (h : GetReadyCondition conds = none) :
    ∀ c ∈ conds, (c.condType == "Ready") = false := by
  intro c hc
  have := List.find?_eq_none.mp h c hc
  simpa using this

/-- Splitting `GetReadyCondition = none` over a cons cell. -/
theorem getReady_none_cons {c : IssuerCondition} {rest : List IssuerCondition}
    (h : GetReadyCondition (c :: rest) = none) :
    (c.condType == "Ready") = false ∧ GetReadyCondition rest = none := by
  have hc : (c.condType == "Ready") = false :=
    getReady_none_forall h c (List.mem_cons_self c rest)
  refine ⟨hc, ?_⟩
  unfold GetReadyCondition at h ⊢
  rw [List.find?_cons_of_neg _ (by simp [hc])] at h
  exact h

/-- The write-back loop distributes over an append whose prefix holds no
`Ready` entry. -/
theorem replaceFirstReady_append {conds : List IssuerCondition}
    (r : IssuerCondition) (l : List IssuerCondition)
    (h : GetReadyCondition conds = none) :
    replaceFirstReady r (conds ++ l) = conds ++ replaceFirstReady r l := by
  induction conds with
  | nil => rfl
  | cons c rest ih =>
    obtain ⟨hc, hrest⟩ := getReady_none_cons h
    rw [List.cons_append]
    simp [replaceFirstReady, hc, ih hrest]

/-- Looking up `Ready` skips a prefix without a `Ready` entry. -/
theorem getReady_append {conds : List IssuerCondition} (l : List IssuerCondition)
    (h : GetReadyCondition conds = none) :
    GetReadyCondition (conds ++ l) = GetReadyCondition l := by
  induction conds with
  | nil => rfl
  | cons c rest ih =>
    obtain ⟨hc, hrest⟩ := getReady_none_cons h
    unfold GetReadyCondition at ih ⊢
    rw [List.cons_append, List.find?_cons_of_neg _ (by simp [hc])]
    exact ih hrest

/-- After writing `r` (of type `Ready`) over the first `Ready` entry of a
list that has one, the first `Ready` entry is `r`. -/
theorem getReady_replaceFirstReady {conds : List IssuerCondition}
    {c : IssuerCondition} (r : IssuerCondition)
    (h : GetReadyCondition conds = some c) (hr : r.condType = "Ready") :
    GetReadyCondition (replaceFirstReady r conds) = some r := by
  induction conds with
  | nil => simp [GetReadyCondition] at h
  | cons a rest ih =>
    by_cases ha : a.condType = "Ready"
    · unfold replaceFirstReady
      rw [if_pos (by simp [ha])]
      unfold GetReadyCondition
      rw [List.find?_cons_of_pos _ (by simp [hr])]
    · have hrest : GetReadyCondition rest = some c := by
        unfold GetReadyCondition at h ⊢
        rw [List.find?_cons_of_neg _ (by simp [ha])] at h
        exact h
      unfold replaceFirstReady
      rw [if_neg (by simp [ha])]
      unfold GetReadyCondition at ih ⊢
      rw [List.find?_cons_of_neg _ (by simp [ha])]
      exact ih hrest

/-- Writing back the very entry that was found leaves the list unchanged. -/
theorem replaceFirstReady_self {conds : List IssuerCondition}
    {c : IssuerCondition} (h : GetReadyCondition conds = some c) :
    replaceFirstReady c conds = conds := by
  induction conds with
  | nil => simp [GetReadyCondition] at h
  | cons a rest ih =>
    by_cases ha : a.condType = "Ready"
    · have hac : a = c := by
        unfold GetReadyCondition at h
        rw [List.find?_cons_of_pos _ (by simp [ha])] at h
        exact Option.some.inj h
      unfold replaceFirstReady
      rw [if_pos (by simp [ha]), hac]
    · have hrest : GetReadyCondition rest = some c := by
        unfold GetReadyCondition at h ⊢
        rw [List.find?_cons_of_neg _ (by simp [ha])] at h
        exact h
      unfold replaceFirstReady
      rw [if_neg (by simp [ha])]
      simp [ih hrest]

/-- The condition `SetReadyCondition` writes when a `Ready` entry `c` was
already present. -/
def mkReadyFrom (c : IssuerCondition) (now : Nat) (v r m : String) : IssuerCondition :=
  { condType := "Ready", status := v
    lastTransitionTime := if c.status = v then c.lastTransitionTime else some now
    reason := r, message := m }

/-- Unfolding of `SetReadyCondition` when a `Ready` entry exists. -/
theorem setReady_eq_of_some {conds : List IssuerCondition} {c : IssuerCondition}
    (now : Nat) (v r m : String) (h : GetReadyCondition conds = some c) :
    SetReadyCondition conds now v r m = replaceFirstReady (mkReadyFrom c now v r m) conds := by
  have hc := getReady_some_type h
  obtain ⟨ct, cs, cl, cr, cm⟩ := c
  simp only at hc
  subst hc
  by_cases hs : cs = v
  · subst hs
    simp [SetReadyCondition, h, mkReadyFrom]
  · simp [SetReadyCondition, h, mkReadyFrom, hs]

/-- Unfolding of `SetReadyCondition` when no `Ready` entry exists: a fresh
condition is appended; its baseline status is the zero value `""`, so the
timestamp is set whenever `value` is a nonempty string. -/
theorem setReady_eq_of_none {conds : List IssuerCondition}
    (now : Nat) (v r m : String) (h : GetReadyCondition conds = none) :
    SetReadyCondition conds now v r m =
      conds ++ [{ condType := "Ready", status := v
                  lastTransitionTime := if v = "" then none else some now
                  reason := r, message := m }] := by
  by_cases hv : v = ""
  · subst hv
    simp [SetReadyCondition, h, replaceFirstReady_append _ _ h, replaceFirstReady]
  · simp [SetReadyCondition, h, replaceFirstReady_append _ _ h, replaceFirstReady,
      hv, Ne.symm hv]

/-- The first `Ready` entry after any `SetReadyCondition` call: status,
reason and message are the arguments just written. -/
theorem getReady_setReady (conds : List IssuerCondition) (now : Nat)
    (v r m : String) :
    ∃ t : Option Nat,
      GetReadyCondition (SetReadyCondition conds now v r m) =
        some { condType := "Ready", status := v, lastTransitionTime := t
               reason := r, message := m } := by
  cases hg : GetReadyCondition conds with
  | some c =>
    refine ⟨if c.status = v then c.lastTransitionTime else some now, ?_⟩
    rw [setReady_eq_of_some now v r m hg]
    exact getReady_replaceFirstReady _ hg rfl
  | none =>
    refine ⟨if v = "" then none else some now, ?_⟩
    rw [setReady_eq_of_none now v r m hg]
    rw [getReady_append _ hg]
    unfold GetReadyCondition
    rw [List.find?_cons_of_pos _ (by simp)]

/-- A second `SetReadyCondition` with identical value/reason/message is a
no-op on the whole condition list, whatever the clock says. -/
theorem setReady_idempotent (conds : List IssuerCondition) (now now2 : Nat)
    (v r m : String) :
    SetReadyCondition (SetReadyCondition conds now v r m) now2 v r m =
      SetReadyCondition conds now v r m := by
  obtain ⟨t, hget⟩ := getReady_setReady conds now v r m
  rw [setReady_eq_of_some now2 v r m hget]
  have hmk : mkReadyFrom
      { condType := "Ready", status := v, lastTransitionTime := t
        reason := r, message := m } now2 v r m =
      { condType := "Ready", status := v, lastTransitionTime := t
        reason := r, message := m } := by
    simp [mkReadyFrom]
  rw [hmk]
  exact replaceFirstReady_self hget

/-- C3: for a status that carries a `Ready` condition `c`,
`SetReadyCondition` updates `lastTransitionTime` to the current time exactly
when the stored status value differs from the new value (otherwise the old
timestamp is kept), and a second call with identical arguments leaves the
entire condition list unchanged. -/
theorem setReady_transition_iff_and_idempotent
    (conds : List IssuerCondition) (c : IssuerCondition) (now now2 : Nat)
    (v r m : String) (h : GetReadyCondition conds = some c) :
    GetReadyCondition (SetReadyCondition conds now v r m) =
      some { condType := "Ready", status := v
             lastTransitionTime :=
               if c.status = v then c.lastTransitionTime else some now
             reason := r, message := m }
    ∧ SetReadyCondition (SetReadyCondition conds now v r m) now2 v r m =
        SetReadyCondition conds now v r m := by
  constructor
  · rw [setReady_eq_of_some now v r m h]
    exact getReady_replaceFirstReady _ h rfl
  · exact setReady_idempotent conds now now2 v r m

/-- A concrete `Ready` condition used by the condition-store witnesses. -/
def readyTrueAtOne : IssuerCondition :=
  { condType := "Ready", status := "True", lastTransitionTime := some 1
    reason := "Checked", message := "" }

/-- Witness for C3: a concrete status whose `Ready` condition is `True` at
time 1; re-setting `True` keeps the old timestamp, and the double call is a
no-op. -/
theorem setReady_transition_iff_and_idempotent_witness :
    GetReadyCondition [readyTrueAtOne] = some readyTrueAtOne
    ∧ (GetReadyCondition (SetReadyCondition [readyTrueAtOne] 7 "True" "Checked" "") =
        some { condType := "Ready", status := "True"
               lastTransitionTime :=
                 if readyTrueAtOne.status = "True" then
                   readyTrueAtOne.lastTransitionTime
                 else some 7
               reason := "Checked", message := "" }
      ∧ SetReadyCondition
          (SetReadyCondition [readyTrueAtOne] 7 "True" "Checked" "") 9 "True" "Checked" "" =
          SetReadyCondition [readyTrueAtOne] 7 "True" "Checked" "") := by
  refine ⟨by decide, ?_⟩
  exact setReady_transition_iff_and_idempotent [readyTrueAtOne] readyTrueAtOne
    7 9 "True" "Checked" "" (by decide)

/-- The `set` operation as the specification words it: when no condition of
the type exists, append one with an `Unknown` baseline, then apply the same
transition rules.  This definition follows the spec text and exists only to
be compared against `SetReadyCondition`, which follows the source. -/
def SetReadyConditionUnknownBaseline (conds : List IssuerCondition) (now : Nat)
    (value reason message : String) : List IssuerCondition :=
  let p : IssuerCondition × List IssuerCondition :=
    match GetReadyCondition conds with
    | some c => (c, conds)
    | none =>
      let c : IssuerCondition :=
        { condType := "Ready", status := "Unknown", lastTransitionTime := none
          reason := "", message := "" }
      (c, conds ++ [c])
  let ready := p.1
  let ready :=
    if ready.status ≠ value then
      { ready with status := value, lastTransitionTime := some now }
    else ready
  let ready := { ready with reason := reason, message := message }
  replaceFirstReady ready p.2

/-- C4 counterexample: on a status with no `Ready` condition the source
appends a zero-valued (empty-status) baseline, not an `Unknown` one: setting
the value `Unknown` on an empty status fires a transition (the timestamp is
set), which the spec's `Unknown`-baseline rule would forbid. -/
theorem setReady_unknown_baseline_counterexample :
    SetReadyCondition [] 0 "Unknown" "init" "msg" ≠
      SetReadyConditionUnknownBaseline [] 0 "Unknown" "init" "msg" := by
  decide

/-- C4 amended: when no `Ready` condition exists, `SetReadyCondition`
appends one whose baseline status is the zero value `""` (not `Unknown`) and
then applies the transition rules; since the empty baseline differs from
every valid condition value, the first call always sets
`lastTransitionTime` to the current time, and reason/message are written. -/
theorem setReady_fresh_empty_baseline
    (conds : List IssuerCondition) (now : Nat) (v r m : String)
    (h : GetReadyCondition conds = none) (hv : v ≠ "") :
    SetReadyCondition conds now v r m =
      conds ++ [{ condType := "Ready", status := v, lastTransitionTime := some now
                  reason := r, message := m }] := by
  rw [setReady_eq_of_none now v r m h]
  simp [hv]

/-- Witness for C4 (amended): fresh `Ready` condition on an empty status. -/
theorem setReady_fresh_empty_baseline_witness :
    GetReadyCondition [] = none ∧ ("Unknown" : String) ≠ ""
    ∧ SetReadyCondition [] 3 "Unknown" "init" "msg" =
        [] ++ [{ condType := "Ready", status := "Unknown", lastTransitionTime := some 3
                 reason := "init", message := "msg" }] := by
  exact ⟨by decide, by decide,
    setReady_fresh_empty_baseline [] 3 "Unknown" "init" "msg" (by decide) (by decide)⟩

/-- Number of `Ready` conditions stored in a status. -/
def readyCount (conds : List IssuerCondition) : Nat :=
  conds.countP (fun c => c.condType == "Ready")

/-- One call of the condition store: `set` mutates the status,
`get` (`GetReadyCondition`) reads it and leaves it unchanged. -/
inductive CondOp where
  | setReady (now : Nat) (value reason message : String)
  | getReady
deriving DecidableEq

/-- Effect of one condition-store call on the stored condition list. -/
def applyCondOp (conds : List IssuerCondition) : CondOp → List IssuerCondition
  | .setReady now v r m => SetReadyCondition conds now v r m
  | .getReady => conds

/-- Without a `Ready` entry the `Ready` count is zero. -/
theorem readyCount_eq_zero_of_none {conds : List IssuerCondition}
    (h : GetReadyCondition conds = none) : readyCount conds = 0 := by
  unfold readyCount
  rw [List.countP_eq_zero]
  intro a ha
  simp [getReady_none_forall h a ha]

/-- Writing a `Ready`-typed condition over the first `Ready` entry keeps the
`Ready` count. -/
theorem readyCount_replaceFirstReady (conds : List IssuerCondition)
    (r : IssuerCondition) (hr : r.condType = "Ready") :
    readyCount (replaceFirstReady r conds) = readyCount conds := by
  induction conds with
  | nil => rfl
  | cons c rest ih =>
    by_cases hc : c.condType = "Ready"
    · simp [replaceFirstReady, readyCount, hc, hr, List.countP_cons]
    · simp only [replaceFirstReady, hc]
      simp only [beq_iff_eq, hc, if_false]
      simp [readyCount, List.countP_cons, hc] at ih ⊢
      exact ih

/-- A single `SetReadyCondition` call preserves "at most one `Ready`
condition". -/
theorem readyCount_setReady_le (conds : List IssuerCondition) (now : Nat)
    (v r m : String) (h : readyCount conds ≤ 1) :
    readyCount (SetReadyCondition conds now v r m) ≤ 1 := by
  cases hg : GetReadyCondition conds with
  | some c =>
    rw [setReady_eq_of_some now v r m hg]
    rw [readyCount_replaceFirstReady _ _ rfl]
    exact h
  | none =>
    rw [setReady_eq_of_none now v r m hg]
    unfold readyCount at *
    rw [List.countP_append]
    rw [List.countP_eq_zero.mpr (fun a ha => by simp [getReady_none_forall hg a ha])]
    simp

/-- C9: starting from a status with at most one `Ready` condition, any
sequence of `SetReadyCondition`/`GetReadyCondition` calls leaves a status
with at most one `Ready` condition. -/
theorem readyCount_invariant (conds : List IssuerCondition) (ops : List CondOp)
    (h : readyCount conds ≤ 1) :
    readyCount (ops.foldl applyCondOp conds) ≤ 1 := by
  induction ops generalizing conds with
  | nil => exact h
  | cons op rest ih =>
    rw [List.foldl_cons]
    apply ih
    cases op with
    | setReady now v r m => exact readyCount_setReady_le conds now v r m h
    | getReady => exact h

/-- Witness for C9: a concrete empty status driven through a set, a get and
another set still holds at most one `Ready` condition. -/
theorem readyCount_invariant_witness :
    readyCount [] ≤ 1
    ∧ readyCount ([CondOp.setReady 1 "True" "Checked" "", CondOp.getReady,
        CondOp.setReady 2 "False" "Error" "boom"].foldl applyCondOp []) ≤ 1 := by
  exact ⟨by decide, readyCount_invariant [] [CondOp.setReady 1 "True" "Checked" "",
    CondOp.getReady, CondOp.setReady 2 "False" "Error" "boom"] (by decide)⟩

/-- A decoded JSON value as seen by the client after `json.Unmarshal` into
`interface{}` (`vendor/.../api/client/client.go`): only the shapes the code
inspects are distinguished — strings, objects, everything else. -/
inductive JValue where
  | str (s : String)
  | obj (fields : List (String × JValue))
  | other

/-- Go map indexing `m[k]`: the first binding wins; a missing key yields the
nil interface value, modelled as `none`. -/
def jLookup (fields : List (String × JValue)) (k : String) : Option JValue :=
  match fields.find? (fun f => f.1 == k) with
  | some f => some f.2
  | none => none

/-- Go two-valued type assertion `v.(string)`: succeeds exactly on a string
(nil or any other shape gives `ok = false`). -/
def asString : Option JValue → Option String
  | some (.str s) => some s
  | _ => none

/-- Go two-valued type assertion `v.(map[string]interface{})`. -/
def asObj : Option JValue → Option (List (String × JValue))
  | some (.obj o) => some o
  | _ => none

/-- Error values produced by the embedded client fragments. -/
inductive ClientError where
  /-- `errors.New(APIClientError, JSONError)` -/
  | jsonError
  /-- `errors.Wrap(APIClientError, ClientHTTPError, ...)` with a message -/
  | httpError (msg : String)
  /-- a failed one-valued Go type assertion (runtime panic) -/
  | goPanic
deriving DecidableEq

/-- `vendor/.../api/client/client.go`, `authReq` lines 246-268: processing of
a successful response's `Result` on the authenticated path.  With
`returnBundle` the result must hold a `bundle` object with a `bundle`
string (`root` is optional, defaulting the CA to `""`); without it the
result must hold a `certificate` string.  Returns `(ca, cert)`. -/
def authReqExtract (returnBundle : Bool) (result : JValue) :
    Except ClientError (String × String) :=
  match result with
  | .obj fields =>
    if returnBundle then
      match asObj (jLookup fields "bundle") with
      | none => .error .jsonError
      | some bundle =>
        match asString (jLookup bundle "bundle") with
        | none => .error .jsonError
        | some cert =>
          let ca := (asString (jLookup bundle "root")).getD ""
          .ok (ca, cert)
    else
      match asString (jLookup fields "certificate") with
      | none => .error .jsonError
      | some cert => .ok ("", cert)
  | _ => .error .jsonError

/-- `vendor/.../api/client/client.go`, `getResultMap`/`request` lines
318-360: processing of a successful response's `Result` on the
unauthenticated path.  The non-bundle branch uses the one-valued assertion
`result["certificate"].(string)` (a runtime panic when it fails) and turns
an empty certificate into "response doesn't contain certificate.". -/
def requestExtract (returnBundle : Bool) (result : JValue) :
    Except ClientError (String × String) :=
  match result with
  | .obj fields =>
    if returnBundle then
      match asObj (jLookup fields "bundle") with
      | some bundle =>
        match asString (jLookup bundle "bundle") with
        | none => .error .goPanic
        | some cert =>
          let ca := (asString (jLookup bundle "root")).getD ""
          if cert ≠ "" then .ok (ca, cert)
          else .error (.httpError "response doesn't contain bundle.")
      | none => .error (.httpError "response doesn't contain bundle.")
    else
      match asString (jLookup fields "certificate") with
      | none => .error .goPanic
      | some cert =>
        if cert ≠ "" then .ok ("", cert)
        else .error (.httpError "response doesn't contain certificate.")
  | _ => .error (.httpError "response is formatted improperly")

/-- C5: on the authenticated bundle-signing path, a successful result with
no `bundle` object is an error, while a `bundle` object carrying the bundled
certificate but no `root` field is accepted with an empty CA and no error. -/
theorem authReq_bundle_root_asymmetry (fields bundle : List (String × JValue))
    (cert : String) :
    (asObj (jLookup fields "bundle") = none →
      authReqExtract true (.obj fields) = .error .jsonError)
    ∧ (asObj (jLookup fields "bundle") = some bundle →
       asString (jLookup bundle "bundle") = some cert →
       asString (jLookup bundle "root") = none →
       authReqExtract true (.obj fields) = .ok ("", cert)) := by
  constructor
  · intro h
    simp [authReqExtract, h]
  · intro h1 h2 h3
    simp [authReqExtract, h1, h2, h3]

/-- Witness for C5: a result without `bundle` errors; a bundle without
`root` yields the certificate with an empty CA. -/
theorem authReq_bundle_root_asymmetry_witness :
    (asObj (jLookup [("certificate", JValue.str "LEAF")] "bundle") = none
      ∧ authReqExtract true (.obj [("certificate", JValue.str "LEAF")]) =
          .error .jsonError)
    ∧ (asObj (jLookup [("bundle", JValue.obj [("bundle", JValue.str "CHAIN")])] "bundle") =
         some [("bundle", JValue.str "CHAIN")]
      ∧ asString (jLookup [("bundle", JValue.str "CHAIN")] "bundle") = some "CHAIN"
      ∧ asString (jLookup [("bundle", JValue.str "CHAIN")] "root") = none
      ∧ authReqExtract true (.obj [("bundle", JValue.obj [("bundle", JValue.str "CHAIN")])]) =
          .ok ("", "CHAIN")) := by
  refine ⟨⟨rfl, ?_⟩, rfl, rfl, rfl, ?_⟩
  · exact (authReq_bundle_root_asymmetry [("certificate", JValue.str "LEAF")] [] "").1 rfl
  · exact (authReq_bundle_root_asymmetry
      [("bundle", JValue.obj [("bundle", JValue.str "CHAIN")])]
      [("bundle", JValue.str "CHAIN")] "CHAIN").2 rfl rfl rfl

/-- C6 counterexample: the signer's plain-signing path is
`AuthRemote.Sign -> AuthSign -> authReq` (`client.go` lines 378-381,
194-197), and there a successful result whose `certificate` is the empty
string is returned as a certificate with a nil error — no backend protocol
error is raised on that path. -/
theorem authReq_plain_empty_certificate_counterexample :
    authReqExtract false (.obj [("certificate", JValue.str "")]) = .ok ("", "")
    ∧ ∀ e : ClientError,
        authReqExtract false (.obj [("certificate", JValue.str "")]) ≠ .error e := by
  exact ⟨rfl, fun e => by simp [authReqExtract, jLookup, asString]⟩

/-- C6 amended: the emptiness check on the plain-signing path lives only in
the unauthenticated `request` function (`server.Sign`), which rejects an
empty certificate string with "response doesn't contain certificate."; the
authenticated path (`AuthRemote.Sign` via `authReq`) accepts the empty
certificate and returns it without error. -/
theorem plain_sign_empty_certificate (fields : List (String × JValue))
    (h : jLookup fields "certificate" = some (JValue.str "")) :
    requestExtract false (.obj fields) =
      .error (.httpError "response doesn't contain certificate.")
    ∧ authReqExtract false (.obj fields) = .ok ("", "") := by
  constructor
  · simp [requestExtract, h, asString]
  · simp [authReqExtract, h, asString]

/-- Witness for C6 (amended): concrete empty-certificate result. -/
theorem plain_sign_empty_certificate_witness :
    jLookup [("certificate", JValue.str "")] "certificate" = some (JValue.str "")
    ∧ (requestExtract false (.obj [("certificate", JValue.str "")]) =
        .error (.httpError "response doesn't contain certificate.")
      ∧ authReqExtract false (.obj [("certificate", JValue.str "")]) = .ok ("", "")) := by
  exact ⟨rfl, plain_sign_empty_certificate [("certificate", JValue.str "")] rfl⟩

/-- A remote target built by the client constructors: one server or an
ordered group (`client.go`, `server` / `NewGroup`). -/
inductive Remote where
  | single (url : String)
  | group (addrs : List String)
deriving DecidableEq

/-- Modelled from the spec: `normalizeURL` (`client.go` line 389) defers to
`goware/urlx.Parse`, whose source is not vendored in the tree.  It trims
surrounding spaces and fails on addresses that do not parse as URLs; the
model rejects the empty address and addresses with an interior space. -/
def normalizeURL (addr : String) : Except Unit String :=
  let a := ((addr.data.dropWhile (fun c => c == ' ')).reverse.dropWhile
    (fun c => c == ' ')).reverse
  if a.isEmpty ∨ a.contains ' ' then .error () else .ok (String.mk a)

/-- Modelled from the spec: `NewGroup` (ordered list of endpoints; source
not in the tree) — builds the group remote for a comma-separated address. -/
def NewGroup (addrs : List String) : Option Remote :=
  some (.group addrs)

/-- `client.go`, `NewServerTLS`: split the address on commas; several
addresses become an ordered group; a single address is normalized, and a
normalization failure returns the nil remote. -/
def NewServerTLS (addr : String) : Option Remote :=
  let addrs := (addr.data.splitOn ',').map String.mk
  if addrs.length > 1 then NewGroup addrs
  else
    match normalizeURL (addrs.headD "") with
    | .error _ => none
    | .ok u => some (.single u)

/-- `client.go`, `AuthRemote` / `NewAuthServer`: wraps the (possibly nil)
embedded `Remote` together with the default auth provider. -/
structure AuthRemote where
  remote : Option Remote
deriving DecidableEq

/-- `client.go`, `NewAuthServer`. -/
def NewAuthServer (addr : String) : AuthRemote :=
  { remote := NewServerTLS addr }

/-- `api/v1alpha1/issuer_types.go`, `IssuerSpec`. -/
structure IssuerSpec where
  url : String
  authSecretName : String
  label : String
  profile : String
  bundle : Bool
deriving DecidableEq

def isHexDigit (c : Char) : Bool :=
  c.isDigit || ('a' ≤ c && c ≤ 'f') || ('A' ≤ c && c ≤ 'F')

/-- Modelled from the spec: `cfssl/auth.New` (source not in the tree)
hex-decodes the authentication key and fails on a malformed (non-hex or
odd-length) key. -/
def authNew (key : String) : Except Unit Unit :=
  if key.length % 2 = 0 ∧ key.toList.all isHexDigit then .ok () else .error ()

/-- The signing request body built by `cfssl.Sign`
(`cfsslapiCertificateRequest` in the signer package). -/
structure CfsslapiCertificateRequest where
  csr : String
  label : String
  profile : String
  bundle : Bool
deriving DecidableEq

/-- One invocation of the remote client (`BasicRemote`). -/
inductive RemoteCall where
  | sign (req : CfsslapiCertificateRequest)
  | bundleSign (req : CfsslapiCertificateRequest)
deriving DecidableEq

/-- The signer's `cfssl` struct: the `*AuthRemote` client plus the issuer's
label/profile/bundle settings. -/
structure Cfssl where
  client : AuthRemote
  label : String
  profile : String
  bundle : Bool
deriving DecidableEq

/-- The signer package's `newCfssl`: build the auth provider from the
secret's `key` field (a missing key indexes to the empty string, Go map
semantics) and wrap an `AuthRemote` over the spec URL.  The URL is never
validated here. -/
def newCfssl (spec : IssuerSpec) (secretData : List (String × String)) :
    Except String Cfssl :=
  let keyStr := ((secretData.find? (fun f => f.1 == "key")).map Prod.snd).getD ""
  match authNew keyStr with
  | .error _ => .error "failed creating cfssl auth provider"
  | .ok _ =>
    .ok { client := NewAuthServer spec.url, label := spec.label
          profile := spec.profile, bundle := spec.bundle }

/-- PEM header of a certificate signing request. -/
def pemCSRHeader : String := "-----BEGIN CERTIFICATE REQUEST-----"

/-- Modelled from the spec: `parseCSR` (the signer's PEM/PKCS#10 parse
helper; its source file is not in the tree).  It accepts exactly the byte
strings that decode as a PEM certificate request, modelled as carrying the
PEM CSR header. -/
def isPEMCSR (csr : String) : Bool :=
  pemCSRHeader.data.isPrefixOf csr.data

/-- Result of a `Sign` call: a certificate, a returned error, or a Go
runtime panic. -/
inductive SignOutcome where
  | ok (cert : String)
  | err (msg : String)
  | panic
deriving DecidableEq

/-- Result of a `Check` call. -/
inductive CheckOutcome where
  | ok
  | err (msg : String)
  | panic
deriving DecidableEq

/-- The signer package's `cfssl.Sign`: verify the CSR parses (returning the
invalid-CSR error otherwise, before anything is sent), build the request
body, dispatch `BundleSign`/`Sign` on the client according to `bundle`, and
wrap a client error.  `responder` abstracts the remote server's behaviour;
the returned list records the remote invocations made.  Calling through an
`AuthRemote` whose embedded `Remote` is nil panics (`AuthSign` is promoted
from a nil interface), before any request is sent. -/
def cfsslSign (c : Cfssl) (responder : RemoteCall → Except String String)
    (csrBytes : String) : SignOutcome × List RemoteCall :=
  if ¬ isPEMCSR csrBytes then (.err "invalid CSR", [])
  else
    let req : CfsslapiCertificateRequest :=
      { csr := csrBytes, label := c.label, profile := c.profile, bundle := c.bundle }
    match c.client.remote with
    | none => (.panic, [])
    | some _ =>
      let call := if c.bundle then RemoteCall.bundleSign req else RemoteCall.sign req
      match responder call with
      | .error e => (.err ("Error from cfssl API: " ++ e), [call])
      | .ok cert => (.ok cert, [call])

/-- The signer package's `cfssl.Check`: marshal `{label, profile}` and call
the client's `Info`; with a nil embedded `Remote` the promoted call
panics. -/
def cfsslCheck (c : Cfssl)
    (infoResponder : String → String → Except String Unit) : CheckOutcome :=
  match c.client.remote with
  | none => .panic
  | some _ =>
    match infoResponder c.label c.profile with
    | .error e => .err e
    | .ok _ => .ok

/-- C7: a byte string that does not parse as a PEM certificate request makes
`cfssl.Sign` return the invalid-CSR error without invoking any remote
operation, for every client state and every remote behaviour — the failure
depends on the input alone, so it recurs identically on any retry. -/
theorem cfsslSign_invalid_csr (c : Cfssl)
    (responder : RemoteCall → Except String String) (csrBytes : String)
    (h : isPEMCSR csrBytes = false) :
    (cfsslSign c responder csrBytes).1 = .err "invalid CSR"
    ∧ (cfsslSign c responder csrBytes).2 = [] := by
  constructor <;> simp [cfsslSign, h]

/-- Witness for C7: the malformed CSR from the signer unit test, against a
concrete signer and a remote that would answer. -/
theorem cfsslSign_invalid_csr_witness :
    isPEMCSR "dsfjdsjfskjfld" = false
    ∧ (cfsslSign
        { client := { remote := some (.single "https://api.signer1.tld") }
          label := "signer1-label", profile := "signer1-profile", bundle := true }
        (fun _ => .ok "CERT") "dsfjdsjfskjfld").1 = .err "invalid CSR"
    ∧ (cfsslSign
        { client := { remote := some (.single "https://api.signer1.tld") }
          label := "signer1-label", profile := "signer1-profile", bundle := true }
        (fun _ => .ok "CERT") "dsfjdsjfskjfld").2 = [] := by
  refine ⟨by decide, ?_⟩
  exact cfsslSign_invalid_csr
    { client := { remote := some (.single "https://api.signer1.tld") }
      label := "signer1-label", profile := "signer1-profile", bundle := true }
    (fun _ => .ok "CERT") "dsfjdsjfskjfld" (by decide)

/-- A spec whose URL does not survive URL normalization (interior space). -/
def badURLIssuerSpec : IssuerSpec :=
  { url := "https://api signer1.tld", authSecretName := "signer1"
    label := "signer1-label", profile := "signer1-profile", bundle := false }

/-- A syntactically valid PEM certificate request body. -/
def someValidCSR : String :=
  pemCSRHeader ++ "\nMIIBZjCCAQwCAQAwWTEPMA0GA1UEChMGU2ltcGxl\n-----END CERTIFICATE REQUEST-----"

/-- C10: there is an issuer spec whose URL fails normalization for which
`newCfssl` still returns a signer and no error; that signer's embedded
remote is nil, and both a subsequent `Sign` (with a well-formed CSR) and a
subsequent `Check` panic instead of returning an error, whatever the remote
would have answered. -/
theorem newCfssl_bad_url_panics :
    normalizeURL badURLIssuerSpec.url = .error ()
    ∧ ∃ c : Cfssl,
        newCfssl badURLIssuerSpec [("key", "b8093a819f367241a8e0f55125589e25")] = .ok c
        ∧ c.client.remote = none
        ∧ (∀ responder : RemoteCall → Except String String,
            (cfsslSign c responder someValidCSR).1 = .panic)
        ∧ (∀ infoResponder : String → String → Except String Unit,
            cfsslCheck c infoResponder = .panic) := by
  refine ⟨rfl, ?_⟩
  refine ⟨{ client := { remote := none }, label := "signer1-label"
            profile := "signer1-profile", bundle := false }, rfl, rfl, ?_, ?_⟩
  · intro responder
    have hp : isPEMCSR someValidCSR = true := by decide
    simp [cfsslSign, hp]
  · intro infoResponder
    rfl

/-- A condition on a CertificateRequest (cert-manager
`CertificateRequestCondition`): type is one of "Ready", "Approved",
"Denied". -/
structure CRCondition where
  ctype : String
  cstatus : String
  reason : String
  message : String
deriving DecidableEq

/-- The signing request (cert-manager `CertificateRequest`): the CSR's
issuer reference, conditions, and the status fields the request controller
writes. -/
structure CertificateRequest where
  ns : String
  name : String
  issuerRefGroup : String
  issuerRefKind : String
  issuerRefName : String
  csrBytes : String
  conditions : List CRCondition
  certificate : Option String
  ca : Option String
  failureTime : Option Nat
deriving DecidableEq

/-- First condition of the given type (cert-manager
`GetCertificateRequestCondition`). -/
def crGetCondition (cr : CertificateRequest) (t : String) : Option CRCondition :=
  cr.conditions.find? (fun c => c.ctype == t)

/-- Whether some condition of the given type currently has the given
status. -/
def crHasCondition (cr : CertificateRequest) (t s : String) : Bool :=
  cr.conditions.any (fun c => c.ctype == t && c.cstatus == s)

/-- Store a condition keyed by type: overwrite the first entry of that type
or append (cert-manager `SetCertificateRequestCondition`). -/
def setCondList (t s r m : String) : List CRCondition → List CRCondition
  | [] => [{ ctype := t, cstatus := s, reason := r, message := m }]
  | c :: rest =>
    if c.ctype == t then { ctype := t, cstatus := s, reason := r, message := m } :: rest
    else c :: setCondList t s r m rest

/-- Write the request's `Ready` condition. -/
def crSetReady (cr : CertificateRequest) (s r m : String) : CertificateRequest :=
  { cr with conditions := setCondList "Ready" s r m cr.conditions }

/-- A namespaced Issuer or a ClusterIssuer object (`ns` is empty for the
cluster-scoped kind); its status reuses the condition store above. -/
structure IssuerObj where
  ns : String
  name : String
  authSecretName : String
  conditions : List IssuerCondition
deriving DecidableEq

/-- A credential secret (`corev1.Secret`): opaque key/value data. -/
structure SecretObj where
  ns : String
  name : String
  data : List (String × String)
deriving DecidableEq

/-- The cluster state a request reconcile reads: issuers, cluster issuers
and secrets. -/
structure CREnv where
  issuers : List IssuerObj
  clusterIssuers : List IssuerObj
  secrets : List SecretObj
deriving DecidableEq

/-- The request controller's configuration and injected collaborators:
the cluster-resource namespace, the approval-check flag, the signer builder
(its success, per the injected factory) and the signer's behaviour. -/
structure CRReconciler where
  clusterResourceNamespace : String
  checkApprovedCondition : Bool
  signerBuilderOk : Bool
  signResult : Except String (String × String)

/-- Result of one request reconcile: the stored request and the returned
error (the requeue interval is never set by this controller). -/
structure CROutcome where
  request : CertificateRequest
  requeueAfter : Option Nat
  error : Option String
deriving DecidableEq

/-- The API group of this operator's issuer types
(`cfsslissuerapi.GroupVersion.Group`). -/
def ourGroup : String := "cfssl-issuer.wikimedia.org"

def deniedMessage : String := "The CertificateRequest was denied by an approving agent"

/-- A transient-failure exit: `Ready=False/Pending` plus a returned error
(spec section 4.4, steps 6-10; "temporary error, retrying"). -/
def crPendingErr (cr : CertificateRequest) (e : String) : CROutcome :=
  { request := crSetReady cr "False" "Pending" ("Temporary error. Retrying: " ++ e)
    requeueAfter := none, error := some e }

/-- Steps 6-11 of the request state machine, entered with the resolved
issuer lookup result and the namespace in which its credential secret must
live. -/
def reconcileCRIssuerSteps (rec : CRReconciler) (env : CREnv)
    (cr : CertificateRequest) (issuer : Option IssuerObj) (secretNs : String) :
    CROutcome :=
  match issuer with
  | none => crPendingErr cr "errGetIssuer"
  | some iss =>
    if ¬ IsReady iss.conditions then crPendingErr cr "errIssuerNotReady"
    else
      match env.secrets.find? (fun s => s.ns == secretNs && s.name == iss.authSecretName) with
      | none => crPendingErr cr "errGetAuthSecret"
      | some _ =>
        if ¬ rec.signerBuilderOk then crPendingErr cr "errSignerBuilder"
        else
          match rec.signResult with
          | .error _ => crPendingErr cr "errSignerSign"
          | .ok (ca, cert) =>
            { request := crSetReady { cr with certificate := some cert, ca := some ca }
                "True" "Issued" "Signed"
              requeueAfter := none, error := none }

/-- Modelled from the spec: `CertificateRequestReconciler.Reconcile`
(spec section 4.4; the controller source is not under the tree, only its
unit tests).  One reconcile of a fetched request: ignore foreign groups,
stop on terminal success, handle denial (terminal, `failureTime` set once),
wait for approval, initialise a missing `Ready` condition, then resolve the
issuer by kind and run the signing steps. -/
def reconcileCRStep (rec : CRReconciler) (env : CREnv)
    (cr : CertificateRequest) (now : Nat) : CROutcome :=
  if cr.issuerRefGroup ≠ ourGroup then
    { request := cr, requeueAfter := none, error := none }
  else if crHasCondition cr "Ready" "True" then
    { request := cr, requeueAfter := none, error := none }
  else if rec.checkApprovedCondition && crHasCondition cr "Denied" "True" then
    let cr2 := crSetReady cr "False" "Denied" deniedMessage
    let cr2 := { cr2 with failureTime := some (cr2.failureTime.getD now) }
    { request := cr2, requeueAfter := none, error := none }
  else if rec.checkApprovedCondition && !(crHasCondition cr "Approved" "True") then
    { request := cr, requeueAfter := none, error := none }
  else if (crGetCondition cr "Ready").isNone then
    { request := crSetReady cr "False" "Pending" "Initialising Ready condition"
      requeueAfter := none, error := none }
  else if cr.issuerRefKind = "Issuer" then
    reconcileCRIssuerSteps rec env cr
      (env.issuers.find? (fun i => i.ns == cr.ns && i.name == cr.issuerRefName)) cr.ns
  else if cr.issuerRefKind = "ClusterIssuer" then
    reconcileCRIssuerSteps rec env cr
      (env.clusterIssuers.find? (fun i => i.name == cr.issuerRefName))
      rec.clusterResourceNamespace
  else
    { request := crSetReady cr "False" "Failed" "unrecognised kind in issuerRef"
      requeueAfter := none, error := none }

/-- Modelled from the spec: the fetch wrapper of `Reconcile` — a deleted
request stops silently (spec section 4.4, step 1). -/
def reconcileCR (rec : CRReconciler) (env : CREnv)
    (req : Option CertificateRequest) (now : Nat) :
    Option CertificateRequest × Option String :=
  match req with
  | none => (none, none)
  | some cr =>
    let o := reconcileCRStep rec env cr now
    (some o.request, o.error)

/-- A sequence of later reconciles of the same stored request, each against
its own cluster state and clock reading. -/
def iterateCR (rec : CRReconciler) : CertificateRequest → List (CREnv × Nat) →
    CertificateRequest
  | cr, [] => cr
  | cr, (env, t) :: rest => iterateCR rec (reconcileCRStep rec env cr t).request rest

/-- After `setCondList`, the first condition of the written type is the
written condition. -/
theorem find?_setCondList (t s r m : String) (l : List CRCondition) :
    (setCondList t s r m l).find? (fun c => c.ctype == t) =
      some { ctype := t, cstatus := s, reason := r, message := m } := by
  induction l with
  | nil => simp [setCondList, List.find?]
  | cons c rest ih =>
    by_cases hc : c.ctype = t
    · rw [show setCondList t s r m (c :: rest) =
        { ctype := t, cstatus := s, reason := r, message := m } :: rest from by
          simp [setCondList, hc]]
      rw [List.find?_cons_of_pos _ (by simp)]
    · rw [show setCondList t s r m (c :: rest) = c :: setCondList t s r m rest from by
        simp [setCondList, hc]]
      rw [List.find?_cons_of_neg _ (by simp [hc])]
      exact ih

/-- The request's `Ready` condition right after `crSetReady`. -/
theorem crGet_crSetReady (cr : CertificateRequest) (s r m : String) :
    crGetCondition (crSetReady cr s r m) "Ready" =
      some { ctype := "Ready", cstatus := s, reason := r, message := m } := by
  simpa [crGetCondition, crSetReady] using
    find?_setCondList "Ready" s r m cr.conditions

/-- `setCondList` leaves queries about a different condition type
unchanged. -/
theorem any_setCondList_ne (t s r m t2 s2 : String) (l : List CRCondition)
    (h : t2 ≠ t) :
    (setCondList t s r m l).any (fun c => c.ctype == t2 && c.cstatus == s2) =
      l.any (fun c => c.ctype == t2 && c.cstatus == s2) := by
  have ht : (t == t2) = false := beq_eq_false_iff_ne.mpr (Ne.symm h)
  induction l with
  | nil => simp [setCondList, ht]
  | cons c rest ih =>
    by_cases hc : c.ctype = t
    · have hct : (c.ctype == t2) = false := by rw [hc]; exact ht
      rw [show setCondList t s r m (c :: rest) =
        { ctype := t, cstatus := s, reason := r, message := m } :: rest from by
          simp [setCondList, hc]]
      simp [List.any_cons, ht, hct]
    · rw [show setCondList t s r m (c :: rest) = c :: setCondList t s r m rest from by
        simp [setCondList, hc]]
      simp [List.any_cons, ih]

/-- If no condition of the type had status `s2` and the written status is a
different one, none has it afterwards either. -/
theorem any_setCondList_same_status (t s r m s2 : String) (l : List CRCondition)
    (hs : s ≠ s2)
    (h : l.any (fun c => c.ctype == t && c.cstatus == s2) = false) :
    (setCondList t s r m l).any (fun c => c.ctype == t && c.cstatus == s2) = false := by
  induction l with
  | nil => simp [setCondList, hs]
  | cons c rest ih =>
    simp only [List.any_cons, Bool.or_eq_false_iff] at h
    by_cases hc : c.ctype = t
    · rw [show setCondList t s r m (c :: rest) =
        { ctype := t, cstatus := s, reason := r, message := m } :: rest from by
          simp [setCondList, hc]]
      simp [List.any_cons, hs, h.2]
    · rw [show setCondList t s r m (c :: rest) = c :: setCondList t s r m rest from by
        simp [setCondList, hc]]
      simp [List.any_cons, h.1, ih h.2]

/-- Writing back exactly the condition that is already stored first is a
no-op. -/
theorem setCondList_self {l : List CRCondition} {t s r m : String}
    (h : l.find? (fun c => c.ctype == t) =
      some { ctype := t, cstatus := s, reason := r, message := m }) :
    setCondList t s r m l = l := by
  induction l with
  | nil => simp [List.find?] at h
  | cons c rest ih =>
    by_cases hc : c.ctype = t
    · rw [List.find?_cons_of_pos _ (by simp [hc])] at h
      simp [setCondList, hc, Option.some.inj h]
    · rw [List.find?_cons_of_neg _ (by simp [hc])] at h
      simp [setCondList, hc, ih h]

/-- `crSetReady` with the stored `Ready` condition's own content is a
no-op on the whole request. -/
theorem crSetReady_self {cr : CertificateRequest} {s r m : String}
    (h : crGetCondition cr "Ready" =
      some { ctype := "Ready", cstatus := s, reason := r, message := m }) :
    crSetReady cr s r m = cr := by
  unfold crSetReady
  rw [setCondList_self h]

/-- The permanent state a denied request reaches: group matching, `Ready`
stored as `False/Denied`, no `Ready=True` entry, the `Denied` mark still
present and the failure time stamped. -/
def deniedTerminalState (cr : CertificateRequest) (t : Nat) : Prop :=
  cr.issuerRefGroup = ourGroup
  ∧ crHasCondition cr "Ready" "True" = false
  ∧ crHasCondition cr "Denied" "True" = true
  ∧ crGetCondition cr "Ready" =
      some { ctype := "Ready", cstatus := "False", reason := "Denied"
             message := deniedMessage }
  ∧ cr.failureTime = some t

/-- One reconcile of a request already in the denied terminal state changes
nothing and returns no error. -/
theorem deniedTerminal_step (rec : CRReconciler) (env : CREnv)
    (cr : CertificateRequest) (now t : Nat)
    (hchk : rec.checkApprovedCondition = true)
    (h : deniedTerminalState cr t) :
    (reconcileCRStep rec env cr now).request = cr
    ∧ (reconcileCRStep rec env cr now).error = none := by
  obtain ⟨hg, hr, hd, hget, hft⟩ := h
  have hset : crSetReady cr "False" "Denied" deniedMessage = cr := crSetReady_self hget
  have hstep : reconcileCRStep rec env cr now =
      { request := cr, requeueAfter := none, error := none } := by
    unfold reconcileCRStep
    rw [if_neg (by simp [hg]), if_neg (by simp [hr]), if_pos (by simp [hchk, hd])]
    simp only [hset, hft, Option.getD_some]
    rw [← hft]
  simp [hstep]

/-- The first reconcile that observes the denial: it exits without error,
stamps `failureTime` (keeping an existing stamp) and lands in the denied
terminal state. -/
theorem deniedTerminal_enter (rec : CRReconciler) (env : CREnv)
    (cr : CertificateRequest) (now : Nat)
    (hchk : rec.checkApprovedCondition = true)
    (hg : cr.issuerRefGroup = ourGroup)
    (hr : crHasCondition cr "Ready" "True" = false)
    (hd : crHasCondition cr "Denied" "True" = true) :
    (reconcileCRStep rec env cr now).error = none
    ∧ (reconcileCRStep rec env cr now).request.failureTime =
        some (cr.failureTime.getD now)
    ∧ deniedTerminalState (reconcileCRStep rec env cr now).request
        (cr.failureTime.getD now) := by
  have hstep : reconcileCRStep rec env cr now =
      { request := { crSetReady cr "False" "Denied" deniedMessage with
                     failureTime := some (cr.failureTime.getD now) }
        requeueAfter := none, error := none } := by
    unfold reconcileCRStep
    rw [if_neg (by simp [hg]), if_neg (by simp [hr]), if_pos (by simp [hchk, hd])]
    rfl
  refine ⟨by simp [hstep], by simp [hstep], ?_⟩
  rw [hstep]
  refine ⟨hg, ?_, ?_, ?_, rfl⟩
  · exact any_setCondList_same_status "Ready" "False" "Denied" deniedMessage "True"
      cr.conditions (by decide) hr
  · rw [show crHasCondition { crSetReady cr "False" "Denied" deniedMessage with
        failureTime := some (cr.failureTime.getD now) } "Denied" "True" =
        (setCondList "Ready" "False" "Denied" deniedMessage cr.conditions).any
          (fun c => c.ctype == "Denied" && c.cstatus == "True") from rfl]
    rw [any_setCondList_ne "Ready" "False" "Denied" deniedMessage "Denied" "True"
      cr.conditions (by decide)]
    exact hd
  · exact find?_setCondList "Ready" "False" "Denied" deniedMessage cr.conditions

/-- Any sequence of later reconciles leaves a denied-terminal request
untouched. -/
theorem deniedTerminal_iterate (rec : CRReconciler) (hchk : rec.checkApprovedCondition = true)
    (cr : CertificateRequest) (t : Nat) (h : deniedTerminalState cr t)
    (laters : List (CREnv × Nat)) :
    iterateCR rec cr laters = cr := by
  induction laters generalizing cr with
  | nil => rfl
  | cons p rest ih =>
    obtain ⟨env, tm⟩ := p
    rw [iterateCR, (deniedTerminal_step rec env cr tm t hchk h).1]
    exact ih cr h

/-- C2: reconciling a denied request (approval checking enabled) returns no
error, sets `Ready=False/Denied` and stamps `failureTime` with the current
clock; the resulting request is permanent — every later reconcile, against
any cluster state and any later clock, returns it unchanged (so
`failureTime` is never altered and `Ready` stays `False`). -/
theorem reconcileCR_denied_terminal (rec : CRReconciler) (env : CREnv)
    (cr : CertificateRequest) (now : Nat)
    (hchk : rec.checkApprovedCondition = true)
    (hg : cr.issuerRefGroup = ourGroup)
    (hr : crHasCondition cr "Ready" "True" = false)
    (hd : crHasCondition cr "Denied" "True" = true)
    (hft : cr.failureTime = none) :
    (reconcileCRStep rec env cr now).error = none
    ∧ (reconcileCRStep rec env cr now).request.failureTime = some now
    ∧ crGetCondition (reconcileCRStep rec env cr now).request "Ready" =
        some { ctype := "Ready", cstatus := "False", reason := "Denied"
               message := deniedMessage }
    ∧ ∀ laters : List (CREnv × Nat),
        iterateCR rec (reconcileCRStep rec env cr now).request laters =
          (reconcileCRStep rec env cr now).request := by
  obtain ⟨herr, hstamp, hstate⟩ := deniedTerminal_enter rec env cr now hchk hg hr hd
  rw [hft] at hstamp hstate
  exact ⟨herr, hstamp, hstate.2.2.2.1, fun laters =>
    deniedTerminal_iterate rec hchk _ now hstate laters⟩

/-- A concrete denied request for the C2 witness. -/
def wCRDenied : CertificateRequest :=
  { ns := "ns1", name := "cr1", issuerRefGroup := ourGroup
    issuerRefKind := "Issuer", issuerRefName := "issuer1", csrBytes := ""
    conditions := [{ ctype := "Denied", cstatus := "True", reason := "", message := "" },
                   { ctype := "Ready", cstatus := "Unknown", reason := "", message := "" }]
    certificate := none, ca := none, failureTime := none }

/-- A reconciler with approval checking enabled and a working signer. -/
def wRec : CRReconciler :=
  { clusterResourceNamespace := "kube-system", checkApprovedCondition := true
    signerBuilderOk := true, signResult := .ok ("CA", "CERT") }

/-- An empty cluster. -/
def wEnvEmpty : CREnv := { issuers := [], clusterIssuers := [], secrets := [] }

/-- Witness for C2: concrete denied request reconciled at time 5. -/
theorem reconcileCR_denied_terminal_witness :
    (wRec.checkApprovedCondition = true
      ∧ wCRDenied.issuerRefGroup = ourGroup
      ∧ crHasCondition wCRDenied "Ready" "True" = false
      ∧ crHasCondition wCRDenied "Denied" "True" = true
      ∧ wCRDenied.failureTime = none)
    ∧ ((reconcileCRStep wRec wEnvEmpty wCRDenied 5).error = none
      ∧ (reconcileCRStep wRec wEnvEmpty wCRDenied 5).request.failureTime = some 5
      ∧ crGetCondition (reconcileCRStep wRec wEnvEmpty wCRDenied 5).request "Ready" =
          some { ctype := "Ready", cstatus := "False", reason := "Denied"
                 message := deniedMessage }
      ∧ ∀ laters : List (CREnv × Nat),
          iterateCR wRec (reconcileCRStep wRec wEnvEmpty wCRDenied 5).request laters =
            (reconcileCRStep wRec wEnvEmpty wCRDenied 5).request) := by
  refine ⟨⟨by decide, by decide, by decide, by decide, by decide⟩, ?_⟩
  exact reconcileCR_denied_terminal wRec wEnvEmpty wCRDenied 5
    (by decide) (by decide) (by decide) (by decide) (by decide)

/-- The guard conjunction under which a reconcile reaches issuer resolution
(spec section 4.4, step 6): matching group, not yet terminally ready, not
denied, approved, `Ready` condition initialised. -/
def crReachesIssuerResolution (cr : CertificateRequest) : Prop :=
  cr.issuerRefGroup = ourGroup
  ∧ crHasCondition cr "Ready" "True" = false
  ∧ crHasCondition cr "Denied" "True" = false
  ∧ crHasCondition cr "Approved" "True" = true
  ∧ (crGetCondition cr "Ready").isSome = true

/-- Under the resolution guards, a reconcile is exactly the kind dispatch
of step 6. -/
theorem reconcileCRStep_reaches (rec : CRReconciler) (env : CREnv)
    (cr : CertificateRequest) (now : Nat)
    (hg : cr.issuerRefGroup = ourGroup)
    (hr : crHasCondition cr "Ready" "True" = false)
    (hd : crHasCondition cr "Denied" "True" = false)
    (ha : crHasCondition cr "Approved" "True" = true)
    (hrc : (crGetCondition cr "Ready").isSome = true) :
    reconcileCRStep rec env cr now =
      if cr.issuerRefKind = "Issuer" then
        reconcileCRIssuerSteps rec env cr
          (env.issuers.find? (fun i => i.ns == cr.ns && i.name == cr.issuerRefName)) cr.ns
      else if cr.issuerRefKind = "ClusterIssuer" then
        reconcileCRIssuerSteps rec env cr
          (env.clusterIssuers.find? (fun i => i.name == cr.issuerRefName))
          rec.clusterResourceNamespace
      else
        { request := crSetReady cr "False" "Failed" "unrecognised kind in issuerRef"
          requeueAfter := none, error := none } := by
  have hn : (crGetCondition cr "Ready").isNone = false := by
    cases hcase : crGetCondition cr "Ready" <;> simp_all
  unfold reconcileCRStep
  rw [if_neg (by simp [hg]), if_neg (by simp [hr]), if_neg (by simp [hd]),
      if_neg (by simp [ha]), if_neg (by simp [hn])]

/-- The `Ready` condition written on every transient failure. -/
def pendingReadyCondition (e : String) : CRCondition :=
  { ctype := "Ready", cstatus := "False", reason := "Pending"
    message := "Temporary error. Retrying: " ++ e }

/-- A transient exit returns its error and stores `Ready=False/Pending`. -/
theorem crPendingErr_spec (cr : CertificateRequest) (e : String) :
    (crPendingErr cr e).error = some e
    ∧ crGetCondition (crPendingErr cr e).request "Ready" =
        some (pendingReadyCondition e) := by
  refine ⟨rfl, ?_⟩
  simpa [crPendingErr, pendingReadyCondition] using
    crGet_crSetReady cr "False" "Pending" ("Temporary error. Retrying: " ++ e)

/-- C1: retry/no-retry separation of the request reconciler.  Every
dependency-not-ready or backend failure — referenced Issuer or
ClusterIssuer not found, issuer not ready, credential secret missing,
signer-builder failure, remote sign failure — returns a non-nil error and
stores `Ready=False/Pending`; an unrecognised issuerRef kind stores
`Ready=False/Failed` and returns nil; an explicit denial returns nil. -/
theorem reconcileCR_retry_noretry_separation :
    (∀ (rec : CRReconciler) (env : CREnv) (cr : CertificateRequest) (now : Nat),
      crReachesIssuerResolution cr → cr.issuerRefKind = "Issuer" →
      env.issuers.find? (fun i => i.ns == cr.ns && i.name == cr.issuerRefName) = none →
      (reconcileCRStep rec env cr now).error = some "errGetIssuer"
      ∧ crGetCondition (reconcileCRStep rec env cr now).request "Ready" =
          some (pendingReadyCondition "errGetIssuer"))
    ∧ (∀ (rec : CRReconciler) (env : CREnv) (cr : CertificateRequest) (now : Nat),
      crReachesIssuerResolution cr → cr.issuerRefKind = "ClusterIssuer" →
      env.clusterIssuers.find? (fun i => i.name == cr.issuerRefName) = none →
      (reconcileCRStep rec env cr now).error = some "errGetIssuer"
      ∧ crGetCondition (reconcileCRStep rec env cr now).request "Ready" =
          some (pendingReadyCondition "errGetIssuer"))
    ∧ (∀ (rec : CRReconciler) (env : CREnv) (cr : CertificateRequest) (now : Nat)
        (iss : IssuerObj),
      crReachesIssuerResolution cr → cr.issuerRefKind = "Issuer" →
      env.issuers.find? (fun i => i.ns == cr.ns && i.name == cr.issuerRefName) = some iss →
      IsReady iss.conditions = false →
      (reconcileCRStep rec env cr now).error = some "errIssuerNotReady"
      ∧ crGetCondition (reconcileCRStep rec env cr now).request "Ready" =
          some (pendingReadyCondition "errIssuerNotReady"))
    ∧ (∀ (rec : CRReconciler) (env : CREnv) (cr : CertificateRequest) (now : Nat)
        (iss : IssuerObj),
      crReachesIssuerResolution cr → cr.issuerRefKind = "Issuer" →
      env.issuers.find? (fun i => i.ns == cr.ns && i.name == cr.issuerRefName) = some iss →
      IsReady iss.conditions = true →
      env.secrets.find? (fun s => s.ns == cr.ns && s.name == iss.authSecretName) = none →
      (reconcileCRStep rec env cr now).error = some "errGetAuthSecret"
      ∧ crGetCondition (reconcileCRStep rec env cr now).request "Ready" =
          some (pendingReadyCondition "errGetAuthSecret"))
    ∧ (∀ (rec : CRReconciler) (env : CREnv) (cr : CertificateRequest) (now : Nat)
        (iss : IssuerObj) (sec : SecretObj),
      crReachesIssuerResolution cr → cr.issuerRefKind = "Issuer" →
      env.issuers.find? (fun i => i.ns == cr.ns && i.name == cr.issuerRefName) = some iss →
      IsReady iss.conditions = true →
      env.secrets.find? (fun s => s.ns == cr.ns && s.name == iss.authSecretName) = some sec →
      rec.signerBuilderOk = false →
      (reconcileCRStep rec env cr now).error = some "errSignerBuilder"
      ∧ crGetCondition (reconcileCRStep rec env cr now).request "Ready" =
          some (pendingReadyCondition "errSignerBuilder"))
    ∧ (∀ (rec : CRReconciler) (env : CREnv) (cr : CertificateRequest) (now : Nat)
        (iss : IssuerObj) (sec : SecretObj) (e0 : String),
      crReachesIssuerResolution cr → cr.issuerRefKind = "Issuer" →
      env.issuers.find? (fun i => i.ns == cr.ns && i.name == cr.issuerRefName) = some iss →
      IsReady iss.conditions = true →
      env.secrets.find? (fun s => s.ns == cr.ns && s.name == iss.authSecretName) = some sec →
      rec.signerBuilderOk = true →
      rec.signResult = .error e0 →
      (reconcileCRStep rec env cr now).error = some "errSignerSign"
      ∧ crGetCondition (reconcileCRStep rec env cr now).request "Ready" =
          some (pendingReadyCondition "errSignerSign"))
    ∧ (∀ (rec : CRReconciler) (env : CREnv) (cr : CertificateRequest) (now : Nat),
      crReachesIssuerResolution cr →
      cr.issuerRefKind ≠ "Issuer" → cr.issuerRefKind ≠ "ClusterIssuer" →
      (reconcileCRStep rec env cr now).error = none
      ∧ crGetCondition (reconcileCRStep rec env cr now).request "Ready" =
          some { ctype := "Ready", cstatus := "False", reason := "Failed"
                 message := "unrecognised kind in issuerRef" })
    ∧ (∀ (rec : CRReconciler) (env : CREnv) (cr : CertificateRequest) (now : Nat),
      rec.checkApprovedCondition = true →
      cr.issuerRefGroup = ourGroup →
      crHasCondition cr "Ready" "True" = false →
      crHasCondition cr "Denied" "True" = true →
      (reconcileCRStep rec env cr now).error = none) := by
  refine ⟨?_, ?_, ?_, ?_, ?_, ?_, ?_, ?_⟩
  · intro rec env cr now h hk hfind
    obtain ⟨hg, hr, hd, ha, hrc⟩ := h
    rw [reconcileCRStep_reaches rec env cr now hg hr hd ha hrc, if_pos hk, hfind]
    exact crPendingErr_spec cr "errGetIssuer"
  · intro rec env cr now h hk hfind
    obtain ⟨hg, hr, hd, ha, hrc⟩ := h
    rw [reconcileCRStep_reaches rec env cr now hg hr hd ha hrc,
        if_neg (by simp [hk]), if_pos hk, hfind]
    exact crPendingErr_spec cr "errGetIssuer"
  · intro rec env cr now iss h hk hfind hnr
    obtain ⟨hg, hr, hd, ha, hrc⟩ := h
    rw [reconcileCRStep_reaches rec env cr now hg hr hd ha hrc, if_pos hk, hfind]
    simp only [reconcileCRIssuerSteps]
    rw [if_pos (by simp [hnr])]
    exact crPendingErr_spec cr "errIssuerNotReady"
  · intro rec env cr now iss h hk hfind hrd hsec
    obtain ⟨hg, hr, hd, ha, hrc⟩ := h
    rw [reconcileCRStep_reaches rec env cr now hg hr hd ha hrc, if_pos hk, hfind]
    simp only [reconcileCRIssuerSteps]
    rw [if_neg (by simp [hrd]), hsec]
    exact crPendingErr_spec cr "errGetAuthSecret"
  · intro rec env cr now iss sec h hk hfind hrd hsec hb
    obtain ⟨hg, hr, hd, ha, hrc⟩ := h
    rw [reconcileCRStep_reaches rec env cr now hg hr hd ha hrc, if_pos hk, hfind]
    simp only [reconcileCRIssuerSteps]
    rw [if_neg (by simp [hrd]), hsec]
    rw [if_pos (by simp [hb])]
    exact crPendingErr_spec cr "errSignerBuilder"
  · intro rec env cr now iss sec e0 h hk hfind hrd hsec hb hsig
    obtain ⟨hg, hr, hd, ha, hrc⟩ := h
    rw [reconcileCRStep_reaches rec env cr now hg hr hd ha hrc, if_pos hk, hfind]
    simp only [reconcileCRIssuerSteps]
    rw [if_neg (by simp [hrd]), hsec, if_neg (by simp [hb]), hsig]
    exact crPendingErr_spec cr "errSignerSign"
  · intro rec env cr now h hk1 hk2
    obtain ⟨hg, hr, hd, ha, hrc⟩ := h
    rw [reconcileCRStep_reaches rec env cr now hg hr hd ha hrc,
        if_neg hk1, if_neg hk2]
    refine ⟨rfl, ?_⟩
    simpa using crGet_crSetReady cr "False" "Failed" "unrecognised kind in issuerRef"
  · intro rec env cr now hchk hg hr hd
    exact (deniedTerminal_enter rec env cr now hchk hg hr hd).1

/-- A concrete approved request whose issuer does not exist. -/
def wCRApproved : CertificateRequest :=
  { ns := "ns1", name := "cr1", issuerRefGroup := ourGroup
    issuerRefKind := "Issuer", issuerRefName := "issuer1", csrBytes := ""
    conditions := [{ ctype := "Approved", cstatus := "True", reason := "", message := "" },
                   { ctype := "Ready", cstatus := "Unknown", reason := "", message := "" }]
    certificate := none, ca := none, failureTime := none }

/-- The same request with an unrecognised issuerRef kind. -/
def wCRBadKind : CertificateRequest :=
  { wCRApproved with issuerRefKind := "ForeignKind" }

/-- Witness for C1: a missing issuer returns the error with
`Ready=False/Pending`; a foreign issuerRef kind and a denial return nil. -/
theorem reconcileCR_retry_noretry_separation_witness :
    (crReachesIssuerResolution wCRApproved
      ∧ (reconcileCRStep wRec wEnvEmpty wCRApproved 3).error = some "errGetIssuer"
      ∧ crGetCondition (reconcileCRStep wRec wEnvEmpty wCRApproved 3).request "Ready" =
          some (pendingReadyCondition "errGetIssuer"))
    ∧ (crReachesIssuerResolution wCRBadKind
      ∧ (reconcileCRStep wRec wEnvEmpty wCRBadKind 3).error = none)
    ∧ (reconcileCRStep wRec wEnvEmpty wCRDenied 3).error = none := by
  refine ⟨⟨⟨rfl, rfl, rfl, rfl, rfl⟩, ?_⟩, ⟨⟨rfl, rfl, rfl, rfl, rfl⟩, ?_⟩, ?_⟩
  · exact reconcileCR_retry_noretry_separation.1 wRec wEnvEmpty wCRApproved 3
      ⟨rfl, rfl, rfl, rfl, rfl⟩ (by decide) (by decide)
  · exact (reconcileCR_retry_noretry_separation.2.2.2.2.2.2.1 wRec wEnvEmpty wCRBadKind 3
      ⟨rfl, rfl, rfl, rfl, rfl⟩ (by decide) (by decide)).1
  · exact reconcileCR_retry_noretry_separation.2.2.2.2.2.2.2 wRec wEnvEmpty wCRDenied 3
      (by decide) (by decide) (by decide) (by decide)

/-- The issuer controller's configuration and injected collaborators: the
served kind, the cluster-resource namespace and the injected health-checker
factory and its checker's behaviour. -/
structure IssuerReconciler where
  kind : String
  clusterResourceNamespace : String
  healthBuilderOk : Bool
  healthCheckOk : Bool
deriving DecidableEq

/-- Result of one issuer reconcile: the updated status conditions, the
requested requeue interval and the returned error. -/
structure IssuerOutcome where
  conditions : List IssuerCondition
  requeueAfter : Option Nat
  error : Option String
deriving DecidableEq

/-- The fixed default health-check period after which a healthy issuer is
re-reconciled (an opaque constant of the controller). -/
def defaultHealthCheckInterval : Nat := 3600

/-- A failing step of the issuer reconcile: `Ready=False` with the step's
error, which is also returned so the engine retries with backoff. -/
def issuerFailOut (iss : IssuerObj) (now : Nat) (e : String) : IssuerOutcome :=
  { conditions := SetReadyCondition iss.conditions now "False" "Error" e
    requeueAfter := none, error := some e }

/-- Modelled from the spec: `IssuerReconciler.Reconcile` (spec section 4.3;
the controller source is not under the tree, only its unit tests).  Fetch
result handling, credential-secret resolution (cluster-resource namespace
for ClusterIssuer, the issuer's namespace otherwise), `key` lookup,
health-checker construction and the health check; on success `Ready=True,
reason=Checked` and a requeue after the fixed default interval. -/
def reconcileIssuer (rec : IssuerReconciler) (issuer : Option IssuerObj)
    (secrets : List SecretObj) (now : Nat) : IssuerOutcome :=
  match issuer with
  | none => { conditions := [], requeueAfter := none, error := none }
  | some iss =>
    let secretNs := if rec.kind = "ClusterIssuer" then rec.clusterResourceNamespace else iss.ns
    match secrets.find? (fun s => s.ns == secretNs && s.name == iss.authSecretName) with
    | none => issuerFailOut iss now "errGetAuthSecret"
    | some sec =>
      if (sec.data.find? (fun f => f.1 == "key")).isNone then
        issuerFailOut iss now "errAuthSecretKeyMissing"
      else if ¬ rec.healthBuilderOk then issuerFailOut iss now "errHealthCheckerBuilder"
      else if ¬ rec.healthCheckOk then issuerFailOut iss now "errHealthCheckerCheck"
      else
        { conditions := SetReadyCondition iss.conditions now "True" "Checked" ""
          requeueAfter := some defaultHealthCheckInterval, error := none }

/-- Setting `Ready` to "True" makes the status ready. -/
theorem isReady_setReady_true (conds : List IssuerCondition) (now : Nat)
    (r m : String) :
    IsReady (SetReadyCondition conds now "True" r m) = true := by
  obtain ⟨t, h⟩ := getReady_setReady conds now "True" r m
  simp [IsReady, h]

/-- C8: when the issuer is found, its credential secret resolves with a
`key` entry, the health-checker builds and the check passes, the reconcile
returns no error, marks the issuer `Ready=True` (reason `Checked`) and
schedules the next reconcile after the fixed default health-check
interval. -/
theorem reconcileIssuer_success (rec : IssuerReconciler) (iss : IssuerObj)
    (secrets : List SecretObj) (sec : SecretObj) (now : Nat)
    (hsec : secrets.find? (fun s =>
      s.ns == (if rec.kind = "ClusterIssuer" then rec.clusterResourceNamespace else iss.ns)
      && s.name == iss.authSecretName) = some sec)
    (hkey : (sec.data.find? (fun f => f.1 == "key")).isNone = false)
    (hb : rec.healthBuilderOk = true) (hc : rec.healthCheckOk = true) :
    (reconcileIssuer rec (some iss) secrets now).error = none
    ∧ (reconcileIssuer rec (some iss) secrets now).requeueAfter =
        some defaultHealthCheckInterval
    ∧ IsReady (reconcileIssuer rec (some iss) secrets now).conditions = true
    ∧ GetReadyCondition (reconcileIssuer rec (some iss) secrets now).conditions =
        GetReadyCondition (SetReadyCondition iss.conditions now "True" "Checked" "") := by
  have hstep : reconcileIssuer rec (some iss) secrets now =
      { conditions := SetReadyCondition iss.conditions now "True" "Checked" ""
        requeueAfter := some defaultHealthCheckInterval, error := none } := by
    simp only [reconcileIssuer]
    rw [hsec]
    simp [hkey, hb, hc]
  refine ⟨by simp [hstep], by simp [hstep], ?_, by simp [hstep]⟩
  rw [hstep]
  exact isReady_setReady_true iss.conditions now "Checked" ""

/-- A concrete healthy issuer mirroring the `success-issuer` unit test. -/
def wIssuer1 : IssuerObj :=
  { ns := "ns1", name := "issuer1", authSecretName := "issuer1-credentials"
    conditions := [{ condType := "Ready", status := "Unknown"
                     lastTransitionTime := none, reason := "", message := "" }] }

/-- Its credential secret. -/
def wSecret1 : SecretObj :=
  { ns := "ns1", name := "issuer1-credentials"
    data := [("key", "b8093a819f367241a8e0f55125589e25")] }

/-- The issuer controller serving namespaced issuers with healthy
collaborators. -/
def wIssuerRec : IssuerReconciler :=
  { kind := "Issuer", clusterResourceNamespace := "kube-system"
    healthBuilderOk := true, healthCheckOk := true }

/-- Witness for C8: the concrete healthy issuer reconciles to `Ready=True`
with the default requeue interval and no error. -/
theorem reconcileIssuer_success_witness :
    ([wSecret1].find? (fun s =>
        s.ns == (if wIssuerRec.kind = "ClusterIssuer" then
          wIssuerRec.clusterResourceNamespace else wIssuer1.ns)
        && s.name == wIssuer1.authSecretName) = some wSecret1
      ∧ (wSecret1.data.find? (fun f => f.1 == "key")).isNone = false)
    ∧ ((reconcileIssuer wIssuerRec (some wIssuer1) [wSecret1] 11).error = none
      ∧ (reconcileIssuer wIssuerRec (some wIssuer1) [wSecret1] 11).requeueAfter =
          some defaultHealthCheckInterval
      ∧ IsReady (reconcileIssuer wIssuerRec (some wIssuer1) [wSecret1] 11).conditions = true
      ∧ GetReadyCondition (reconcileIssuer wIssuerRec (some wIssuer1) [wSecret1] 11).conditions =
          GetReadyCondition (SetReadyCondition wIssuer1.conditions 11 "True" "Checked" "")) := by
  refine ⟨⟨by decide, by decide⟩, ?_⟩
  exact reconcileIssuer_success wIssuerRec wIssuer1 [wSecret1] wSecret1 11
    (by decide) (by decide) (by decide) (by decide)
